import Mathlib

/-!
# Pagination-continuity checker: a shallow embedding

This file embeds the pagination scripts of the `feed-iop-scripts`
repository (chiefly `test_pagination.py`) into Lean and proves the
specified properties of the extractor functions, the three-page
pagination-continuity checker, the batch runner and the selective
retry operations.

Python values flowing through the scripts are JSON-like dictionaries;
they are modelled by the inductive type `Json` below.  Python
operations that can raise (`d['k']` on a non-dict, `len` of a number,
`.get` on a non-dict, ...) are modelled in `Except String`, the error
string naming the Python exception class.  The remote collaborators
(`get_qul_response` and `call_grpc`) are modelled by a `Backend`
record of oracle functions, and the checker additionally returns the
trace of external calls it issued, so that properties such as "no
request for page 2 is issued" or "the preprocessor is called exactly
once" are statable.
-/

/-- A JSON-like Python value (`None`, `bool`, `int`, `str`, `list`, `dict`).

Dictionaries are association lists with string keys; the values built by
the scripts never carry duplicate keys, and equality of such
dictionaries is modelled structurally. -/
inductive Json where
  | null : Json
  | bool (b : Bool) : Json
  | num (n : Int) : Json
  | str (s : String) : Json
  | arr (elems : List Json) : Json
  | obj (fields : List (String × Json)) : Json

mutual

/-- Decidable equality of JSON-like values (structural). -/
def Json.decEq : (a b : Json) → Decidable (a = b)
  | .null, .null => isTrue rfl
  | .bool a, .bool b =>
    if h : a = b then isTrue (by rw [h]) else isFalse (by intro hh; injection hh; contradiction)
  | .num a, .num b =>
    if h : a = b then isTrue (by rw [h]) else isFalse (by intro hh; injection hh; contradiction)
  | .str a, .str b =>
    if h : a = b then isTrue (by rw [h]) else isFalse (by intro hh; injection hh; contradiction)
  | .arr a, .arr b =>
    match Json.decEqList a b with
    | isTrue h => isTrue (by rw [h])
    | isFalse h => isFalse (by intro hh; injection hh; contradiction)
  | .obj a, .obj b =>
    match Json.decEqFields a b with
    | isTrue h => isTrue (by rw [h])
    | isFalse h => isFalse (by intro hh; injection hh; contradiction)
  | .null, .bool _ => isFalse (fun h => Json.noConfusion h)
  | .null, .num _ => isFalse (fun h => Json.noConfusion h)
  | .null, .str _ => isFalse (fun h => Json.noConfusion h)
  | .null, .arr _ => isFalse (fun h => Json.noConfusion h)
  | .null, .obj _ => isFalse (fun h => Json.noConfusion h)
  | .bool _, .null => isFalse (fun h => Json.noConfusion h)
  | .bool _, .num _ => isFalse (fun h => Json.noConfusion h)
  | .bool _, .str _ => isFalse (fun h => Json.noConfusion h)
  | .bool _, .arr _ => isFalse (fun h => Json.noConfusion h)
  | .bool _, .obj _ => isFalse (fun h => Json.noConfusion h)
  | .num _, .null => isFalse (fun h => Json.noConfusion h)
  | .num _, .bool _ => isFalse (fun h => Json.noConfusion h)
  | .num _, .str _ => isFalse (fun h => Json.noConfusion h)
  | .num _, .arr _ => isFalse (fun h => Json.noConfusion h)
  | .num _, .obj _ => isFalse (fun h => Json.noConfusion h)
  | .str _, .null => isFalse (fun h => Json.noConfusion h)
  | .str _, .bool _ => isFalse (fun h => Json.noConfusion h)
  | .str _, .num _ => isFalse (fun h => Json.noConfusion h)
  | .str _, .arr _ => isFalse (fun h => Json.noConfusion h)
  | .str _, .obj _ => isFalse (fun h => Json.noConfusion h)
  | .arr _, .null => isFalse (fun h => Json.noConfusion h)
  | .arr _, .bool _ => isFalse (fun h => Json.noConfusion h)
  | .arr _, .num _ => isFalse (fun h => Json.noConfusion h)
  | .arr _, .str _ => isFalse (fun h => Json.noConfusion h)
  | .arr _, .obj _ => isFalse (fun h => Json.noConfusion h)
  | .obj _, .null => isFalse (fun h => Json.noConfusion h)
  | .obj _, .bool _ => isFalse (fun h => Json.noConfusion h)
  | .obj _, .num _ => isFalse (fun h => Json.noConfusion h)
  | .obj _, .str _ => isFalse (fun h => Json.noConfusion h)
  | .obj _, .arr _ => isFalse (fun h => Json.noConfusion h)

/-- Decidable equality of lists of JSON-like values. -/
def Json.decEqList : (a b : List Json) → Decidable (a = b)
  | [], [] => isTrue rfl
  | [], _ :: _ => isFalse (fun h => List.noConfusion h)
  | _ :: _, [] => isFalse (fun h => List.noConfusion h)
  | x :: xs, y :: ys =>
    match Json.decEq x y with
    | isFalse h => isFalse (by intro hh; injection hh; contradiction)
    | isTrue h1 =>
      match Json.decEqList xs ys with
      | isTrue h2 => isTrue (by rw [h1, h2])
      | isFalse h => isFalse (by intro hh; injection hh; contradiction)

/-- Decidable equality of JSON-like dict entry lists. -/
def Json.decEqFields : (a b : List (String × Json)) → Decidable (a = b)
  | [], [] => isTrue rfl
  | [], _ :: _ => isFalse (fun h => List.noConfusion h)
  | _ :: _, [] => isFalse (fun h => List.noConfusion h)
  | (k1, v1) :: xs, (k2, v2) :: ys =>
    if hk : k1 = k2 then
      match Json.decEq v1 v2 with
      | isFalse h => isFalse (by intro hh; injection hh with h1 h2; injection h1; contradiction)
      | isTrue h1 =>
        match Json.decEqFields xs ys with
        | isTrue h2 => isTrue (by rw [hk, h1, h2])
        | isFalse h => isFalse (by intro hh; injection hh; contradiction)
    else isFalse (by intro hh; injection hh with h1 h2; injection h1; contradiction)

end

instance : DecidableEq Json := Json.decEq

/-- First value bound to `key` in an association list (Python dict lookup). -/
def Json.lookup (fields : List (String × Json)) (key : String) : Option Json :=
  match fields with
  | [] => none
  | (k, v) :: rest => if k = key then some v else Json.lookup rest key

/-- Python truthiness (`bool(v)`) of a JSON-like value. -/
def pyTruthy : Json → Bool
  | .null => false
  | .bool b => b
  | .num n => n != 0
  | .str s => s != ""
  | .arr l => !l.isEmpty
  | .obj f => !f.isEmpty

/-- Python `x or y` on JSON-like values: `x` if truthy, else `y`. -/
def pyOr (x y : Json) : Json :=
  if pyTruthy x then x else y

/-- Python `d.get(key)` (default `None`); raises `AttributeError` when the
receiver is not a dict. -/
def pyGet : Json → String → Except String Json
  | .obj fields, key => .ok ((Json.lookup fields key).getD .null)
  | _, _ => .error "AttributeError"

/-- Decidable substring test on `List Char` (helper for `strContains`). -/
def containsSub (pat : List Char) : List Char → Bool
  | [] => pat.isEmpty
  | c :: rest => pat.isPrefixOf (c :: rest) || containsSub pat rest

/-- Python `pat in s` for strings: substring containment. -/
def strContains (s pat : String) : Bool :=
  containsSub pat.toList s.toList

/-- Python `key in v` for a string key: dict-key membership, list
membership, or substring test; raises `TypeError` otherwise. -/
def pyContains (key : String) : Json → Except String Bool
  | .obj fields => .ok (Json.lookup fields key).isSome
  | .arr elems => .ok (elems.contains (Json.str key))
  | .str s => .ok (strContains s key)
  | _ => .error "TypeError"

/-- Python `v[key]` with a string key: dict lookup (`KeyError` when
absent); `TypeError` on every non-dict receiver (list and string
subscripts require integers). -/
def pySubscriptStr : Json → String → Except String Json
  | .obj fields, key =>
    match Json.lookup fields key with
    | some v => .ok v
    | none => .error "KeyError"
  | _, _ => .error "TypeError"

/-- Python `len(v)`: defined for lists, strings and dicts; `TypeError`
otherwise. -/
def pyLen : Json → Except String Nat
  | .arr l => .ok l.length
  | .str s => .ok s.length
  | .obj f => .ok f.length
  | _ => .error "TypeError"

/-- Python `v[i]` with an integer index, including the negative-index
convention; `IndexError` when out of range, `KeyError` on a dict (the
dicts of this model have string keys only), `TypeError` otherwise. -/
def pyIndex : Json → Int → Except String Json
  | .arr l, i =>
    let j : Int := if i < 0 then i + l.length else i
    if h : 0 ≤ j ∧ j.toNat < l.length then .ok (l.get ⟨j.toNat, h.2⟩)
    else .error "IndexError"
  | .str s, i =>
    let cs := s.toList
    let j : Int := if i < 0 then i + cs.length else i
    if h : 0 ≤ j ∧ j.toNat < cs.length then .ok (.str (String.mk [cs.get ⟨j.toNat, h.2⟩]))
    else .error "IndexError"
  | .obj _, _ => .error "KeyError"
  | _, _ => .error "TypeError"

mutual

/-- Python `str(v)` of a JSON-like value, as interpolated into f-strings
by the checker when it formats catalog/product identifiers. -/
def pyStr : Json → String
  | .null => "None"
  | .bool true => "True"
  | .bool false => "False"
  | .num n => toString n
  | .str s => s
  | .arr l => "[" ++ pyReprList l ++ "]"
  | .obj f => "\x7b" ++ pyReprFields f ++ "\x7d"

/-- Python `repr(v)` (used for elements nested inside containers). -/
def pyRepr : Json → String
  | .null => "None"
  | .bool true => "True"
  | .bool false => "False"
  | .num n => toString n
  | .str s => "\x27" ++ s ++ "\x27"
  | .arr l => "[" ++ pyReprList l ++ "]"
  | .obj f => "\x7b" ++ pyReprFields f ++ "\x7d"

/-- Comma-separated reprs of the elements of a list. -/
def pyReprList : List Json → String
  | [] => ""
  | [x] => pyRepr x
  | x :: y :: rest => pyRepr x ++ ", " ++ pyReprList (y :: rest)

/-- Comma-separated `key: value` reprs of the entries of a dict. -/
def pyReprFields : List (String × Json) → String
  | [] => ""
  | [(k, v)] => "\x27" ++ k ++ "\x27: " ++ pyRepr v
  | (k, v) :: e :: rest => "\x27" ++ k ++ "\x27: " ++ pyRepr v ++ ", " ++ pyReprFields (e :: rest)

end

mutual

/-- Serialization of a JSON-like value, modelling
`json.dumps(v, indent=4)` from `test_pagination.py` up to whitespace
and quoting of exotic characters.  The scripts only ever thread the
serialized preprocessor response through requests unchanged, so no
claim depends on the rendered text itself, only on the serialization
being a fixed function of the value. -/
def json_dumps : Json → String
  | .null => "null"
  | .bool true => "true"
  | .bool false => "false"
  | .num n => toString n
  | .str s => "\x22" ++ s ++ "\x22"
  | .arr l => "[" ++ json_dumpsList l ++ "]"
  | .obj f => "\x7b" ++ json_dumpsFields f ++ "\x7d"

/-- Comma-separated serializations of the elements of a list. -/
def json_dumpsList : List Json → String
  | [] => ""
  | [x] => json_dumps x
  | x :: y :: rest => json_dumps x ++ ", " ++ json_dumpsList (y :: rest)

/-- Comma-separated `"key": value` serializations of dict entries. -/
def json_dumpsFields : List (String × Json) → String
  | [] => ""
  | [(k, v)] => "\x22" ++ k ++ "\x22: " ++ json_dumps v
  | (k, v) :: e :: rest => "\x22" ++ k ++ "\x22: " ++ json_dumps v ++ ", " ++ json_dumpsFields (e :: rest)

end

/-! ## Configuration constants (`test_pagination.py`, lines 17-28) -/

def FEED_CONTEXT : String := "text_search_mall_v1"
def LIMIT : Int := 10
def TEST_LIMIT : Int := 20
def SESSION_ID : String := "session_id"
def TENANT_CONTEXT : String := "organic"

/-! ## Request building and response extraction -/

/-- `build_feed_request(feed_id, preprocessor_response, cursor, limit)`:
builds the feed-request dict from constants; the `cursor` key is added
only when the cursor argument is truthy (`if cursor:`), so `None` and
the empty string both yield a first-page request. -/
def build_feed_request (feed_id : String) (preprocessor_response : String)
    (cursor : Json) (limit : Option Int) : Json :=
  let request_limit := limit.getD LIMIT
  let base : List (String × Json) :=
    [("feed_request_context", .obj
       [("feed_type", .str "text_search"),
        ("feed_context", .str FEED_CONTEXT),
        ("feed_id", .str feed_id),
        ("search_metadata", .obj
          [("preprocessor_response", .str preprocessor_response)])]),
     ("limit", .num request_limit),
     ("session_context", .obj [("session_id", .str SESSION_ID)]),
     ("tenant_request_context", .obj [("tenant_context", .str TENANT_CONTEXT)]),
     ("sort_config", .obj
       [("sort_by", .str "most_relevant"), ("sort_order", .str "desc")]),
     ("filter_config", .obj
       [("applied_filters", .obj [("filter_list", .arr [])])])]
  if pyTruthy cursor then .obj (base ++ [("cursor", cursor)]) else .obj base

/-- `get_items(response)`: the items list found under `data.items`
(checked first) or a top-level `items` key, `[]` when the response is
not a dict or carries neither key.  The membership test
`'items' in response['data']` and the subscript `response['data']['items']`
follow Python semantics and can raise when `data` is bound to a
non-container value. -/
def get_items (response : Json) : Except String Json :=
  match response with
  | .obj fields =>
    match Json.lookup fields "data" with
    | some dataVal =>
      match pyContains "items" dataVal with
      | .error e => .error e
      | .ok true => pySubscriptStr dataVal "items"
      | .ok false =>
        match Json.lookup fields "items" with
        | some v => .ok v
        | none => .ok (.arr [])
    | none =>
      match Json.lookup fields "items" with
      | some v => .ok v
      | none => .ok (.arr [])
  | _ => .ok (.arr [])

/-- The cursor of one item, tolerating both field-name spellings:
`item.get('cursor') or item.get('Cursor')` (shared by
`get_last_cursor` and `get_second_last_cursor`). -/
def extract_cursor (item : Json) : Except String Json :=
  match pyGet item "cursor" with
  | .error e => .error e
  | .ok c => if pyTruthy c then .ok c else pyGet item "Cursor"

/-- `get_second_last_cursor(response)`: the cursor of the second-last
item (`items[-2]`), or `None` when fewer than 2 items are found. -/
def get_second_last_cursor (response : Json) : Except String Json :=
  match get_items response with
  | .error e => .error e
  | .ok items =>
    if pyTruthy items then
      match pyLen items with
      | .error e => .error e
      | .ok n =>
        if 2 ≤ n then
          match pyIndex items (-2) with
          | .error e => .error e
          | .ok second_last_item => extract_cursor second_last_item
        else .ok .null
    else .ok .null

/-- `get_last_cursor(response)`: the cursor of the last item
(`items[-1]`), or `None` when no items are found. -/
def get_last_cursor (response : Json) : Except String Json :=
  match get_items response with
  | .error e => .error e
  | .ok items =>
    if pyTruthy items then
      match pyLen items with
      | .error e => .error e
      | .ok n =>
        if 0 < n then
          match pyIndex items (-1) with
          | .error e => .error e
          | .ok last_item => extract_cursor last_item
        else .ok .null
    else .ok .null

/-- `get_item_identifier(item)`: the `(catalog_id, product_id)` pair read
from `item['entity_response'] or item['entityResponse'] or {}`, each
field tolerating both naming conventions; raises `AttributeError` when
`item` or the selected container is not a dict.  Each `x or y` chain
follows Python truthiness. -/
def get_item_identifier (item : Json) : Except String (Json × Json) :=
  match item with
  | .obj fields =>
    let entity_response :=
      pyOr (pyOr ((Json.lookup fields "entity_response").getD .null)
                 ((Json.lookup fields "entityResponse").getD .null))
           (.obj [])
    match entity_response with
    | .obj ef =>
      let catalog_id := pyOr ((Json.lookup ef "catalog_id").getD .null)
                             ((Json.lookup ef "catalogId").getD .null)
      let product_id := pyOr ((Json.lookup ef "product_id").getD .null)
                             ((Json.lookup ef "productId").getD .null)
      .ok (catalog_id, product_id)
    | _ => .error "AttributeError"
  | _ => .error "AttributeError"

/-- `compare_items(item1, item2)`: `id1 == id2 and id1[0] is not None`
on the two item identifiers. -/
def compare_items (item1 item2 : Json) : Except String Bool :=
  match get_item_identifier item1 with
  | .error e => .error e
  | .ok id1 =>
    match get_item_identifier item2 with
    | .error e => .error e
    | .ok id2 => .ok (decide (id1 = id2 ∧ id1.1 ≠ Json.null))

/-! ## The pagination-continuity checker (`test_pagination_continuity`)

The two remote collaborators are modelled as oracles: `qul` models
`get_qul_response` (returning `none` on failure, as the Python helper
catches its request errors and returns `None`), and `grpc` models
`call_grpc` (raising, i.e. `.error`, on transport/protocol failure).
The checker returns its Python result — `(success, error_message)`,
or `.error` for an uncaught exception — together with the ordered
trace of external calls it made. -/

/-- One external call made by the checker. -/
inductive Event where
  | qulCall (query : String) : Event
  | grpcCall (request : Json) : Event
deriving DecidableEq

/-- The remote collaborators of the checker. -/
structure Backend where
  qul : String → Option Json
  grpc : Json → Except String Json

/-- Line 517 / line 531: the boundary-mismatch diagnostic naming the two
pages and the mismatched key values. -/
def boundary_error_detail (pageA pageB : String) (idA idB : Json × Json) : String :=
  pageA ++ " last (Catalog ID=" ++ pyStr idA.1 ++ ", Product ID=" ++ pyStr idA.2 ++
  ") != " ++ pageB ++ " first (Catalog ID=" ++ pyStr idB.1 ++ ", Product ID=" ++ pyStr idB.2 ++ ")"

/-- Lines 507-551: both boundary checks, evaluated unconditionally in
order, their failure diagnostics collected and joined with `"; "`. -/
def verify_continuity (last_item_page1 first_item_page2 last_item_page2 first_item_page3 : Json)
    (last_id_page1 first_id_page2 last_id_page2 first_id_page3 : Json × Json) :
    Except String (Bool × Option String) :=
  match compare_items last_item_page1 first_item_page2 with
  | .error e => .error e
  | .ok match1 =>
    match compare_items last_item_page2 first_item_page3 with
    | .error e => .error e
    | .ok match2 =>
      let error_details :=
        (if match1 then [] else
          [boundary_error_detail "Page 1" "Page 2" last_id_page1 first_id_page2]) ++
        (if match2 then [] else
          [boundary_error_detail "Page 2" "Page 3" last_id_page2 first_id_page3])
      if match1 && match2 then .ok (true, none)
      else .ok (false, some (String.intercalate "; " error_details))

/-- Lines 468-551: fetch page 3 with the second-last cursor of page 2,
require at least one item, and run the continuity checks.  The second
component is the list of external calls made by this stage. -/
def page3_stage (be : Backend) (feed_id preprocessor_response : String)
    (second_last_cursor_page2 : Json)
    (last_item_page1 first_item_page2 last_item_page2 : Json)
    (last_id_page1 first_id_page2 last_id_page2 : Json × Json) :
    Except String (Bool × Option String) × List Event :=
  let request3 := build_feed_request feed_id preprocessor_response
                    second_last_cursor_page2 (some TEST_LIMIT)
  (match be.grpc request3 with
   | .error e => .ok (false, some ("Page 3 call failed: " ++ e))
   | .ok response3 =>
     match get_items response3 with
     | .error e => .error e
     | .ok items3 =>
       match pyLen items3 with
       | .error e => .error e
       | .ok n3 =>
         if n3 = 0 then .ok (false, some "No items returned in page 3")
         else
           match pyIndex items3 0 with
           | .error e => .error e
           | .ok first_item_page3 =>
             match get_item_identifier first_item_page3 with
             | .error e => .error e
             | .ok first_id_page3 =>
               verify_continuity last_item_page1 first_item_page2 last_item_page2
                 first_item_page3 last_id_page1 first_id_page2 last_id_page2 first_id_page3,
   [.grpcCall request3])

/-- Lines 423-466: fetch page 2 with the second-last cursor of page 1,
require at least two items and a usable second-last cursor, then hand
over to the page-3 stage. -/
def page2_stage (be : Backend) (feed_id preprocessor_response : String)
    (second_last_cursor_page1 : Json)
    (last_item_page1 : Json) (last_id_page1 : Json × Json) :
    Except String (Bool × Option String) × List Event :=
  let request2 := build_feed_request feed_id preprocessor_response
                    second_last_cursor_page1 (some TEST_LIMIT)
  match be.grpc request2 with
  | .error e => (.ok (false, some ("Page 2 call failed: " ++ e)), [.grpcCall request2])
  | .ok response2 =>
    match get_items response2 with
    | .error e => (.error e, [.grpcCall request2])
    | .ok items2 =>
      match pyLen items2 with
      | .error e => (.error e, [.grpcCall request2])
      | .ok n2 =>
        if n2 < 2 then
          (.ok (false, some ("Not enough items in page 2 (got " ++ toString n2 ++
             ", need at least 2)")), [.grpcCall request2])
        else
          match pyIndex items2 0 with
          | .error e => (.error e, [.grpcCall request2])
          | .ok first_item_page2 =>
            match pyIndex items2 (-1) with
            | .error e => (.error e, [.grpcCall request2])
            | .ok last_item_page2 =>
              match get_second_last_cursor response2 with
              | .error e => (.error e, [.grpcCall request2])
              | .ok second_last_cursor_page2 =>
                if !pyTruthy second_last_cursor_page2 then
                  (.ok (false, some "Could not extract cursor from second-last item in page 2"),
                   [.grpcCall request2])
                else
                  match get_item_identifier first_item_page2 with
                  | .error e => (.error e, [.grpcCall request2])
                  | .ok first_id_page2 =>
                    match get_item_identifier last_item_page2 with
                    | .error e => (.error e, [.grpcCall request2])
                    | .ok last_id_page2 =>
                      let next := page3_stage be feed_id preprocessor_response
                                    second_last_cursor_page2 last_item_page1 first_item_page2
                                    last_item_page2 last_id_page1 first_id_page2 last_id_page2
                      (next.1, .grpcCall request2 :: next.2)

/-- `test_pagination_continuity(feed_id)` (lines 344-551): obtain the
preprocessor result once, fetch page 1 without a cursor, require at
least two items and a usable second-last cursor, then run the page-2
and page-3 stages.  Returns the Python result — `.ok (success,
error_message)`, or `.error` for an uncaught exception — paired with
the trace of external calls. -/
def page1_tail (be : Backend) (feed_id preprocessor_response : String)
    (response1 : Json) : Except String (Bool × Option String) × List Event :=
  match get_items response1 with
  | .error e => (.error e, [])
  | .ok items1 =>
    match pyLen items1 with
    | .error e => (.error e, [])
    | .ok n1 =>
      if n1 < 2 then
        (.ok (false, some ("Not enough items in page 1 (got " ++ toString n1 ++
           ", need at least 2)")), [])
      else
        match pyIndex items1 (-1) with
        | .error e => (.error e, [])
        | .ok last_item_page1 =>
          match get_second_last_cursor response1 with
          | .error e => (.error e, [])
          | .ok second_last_cursor_page1 =>
            if !pyTruthy second_last_cursor_page1 then
              (.ok (false, some "Could not extract cursor from second-last item in page 1"),
               [])
            else
              match get_item_identifier last_item_page1 with
              | .error e => (.error e, [])
              | .ok last_id_page1 =>
                page2_stage be feed_id preprocessor_response
                  second_last_cursor_page1 last_item_page1 last_id_page1

/-- `test_pagination_continuity(feed_id)`, assembled: the preprocessor
call, the page-1 fetch, then `page1_tail`. -/
def test_pagination_continuity (be : Backend) (feed_id : String) :
    Except String (Bool × Option String) × List Event :=
  match be.qul feed_id with
  | none => (.ok (false, some "Failed to get QUL response"), [.qulCall feed_id])
  | some qul_response =>
    let preprocessor_response := json_dumps qul_response
    let request1 := build_feed_request feed_id preprocessor_response .null (some TEST_LIMIT)
    match be.grpc request1 with
    | .error e =>
      (.ok (false, some ("Page 1 call failed: " ++ e)), [.qulCall feed_id, .grpcCall request1])
    | .ok response1 =>
      let tail := page1_tail be feed_id preprocessor_response response1
      (tail.1, .qulCall feed_id :: .grpcCall request1 :: tail.2)

/-! ## Batch runner and selective retry (`batch_test_from_csv`,
`retry_failed_queries`, `retry_grpc_failed_queries`)

The CSV I/O around these functions is plumbing; the embeddings below
model their per-query logic on the parsed data: a list of queries for
the batch runner, and the parsed result rows (nonempty stripped
queries, as produced by the readers) for the retry operations. -/

/-- One row of the results file: `{query, status, error_message}`. -/
structure ResultRow where
  query : String
  status : String
  error_message : String
deriving DecidableEq

/-- Lines 594-612 (body of the per-query loop of `batch_test_from_csv`):
run the checker once, fold an uncaught exception into a FAILED row, and
record the error message (empty when passed). -/
def run_query (be : Backend) (query : String) : ResultRow :=
  match (test_pagination_continuity be query).1 with
  | .error e => { query := query, status := "FAILED", error_message := "Exception: " ++ e }
  | .ok (true, _) => { query := query, status := "PASSED", error_message := "" }
  | .ok (false, msg) => { query := query, status := "FAILED", error_message := msg.getD "" }

/-- Lines 591-617: the sequential per-query loop of
`batch_test_from_csv`, producing one result row per query. -/
def batch_run (be : Backend) (queries : List String) : List ResultRow :=
  queries.map (run_query be)

/-- Python `s.lower()` (per character, which agrees with CPython on the
ASCII error messages this script produces). -/
def pyLower (s : String) : String :=
  String.mk (s.toList.map Char.toLower)

/-- Lines 771-776 of `retry_grpc_failed_queries`: a row is selected for
retry when its status is FAILED, its error message is nonempty and the
lower-cased message contains a gRPC/call-failed marker. -/
def is_grpc_failure (row : ResultRow) : Bool :=
  row.status = "FAILED" && row.error_message ≠ "" &&
    (strContains (pyLower row.error_message) "grpc call failed" ||
     strContains (pyLower row.error_message) "call failed")

/-- `query_to_index`: the dict comprehension
`{result['query']: idx for idx, result in enumerate(existing_results)}`
maps each query text to the index of its LAST occurrence (later
entries overwrite earlier ones). -/
def query_to_index (rows : List ResultRow) (q : String) : Option Nat :=
  match rows with
  | [] => none
  | r :: rest =>
    match query_to_index rest q with
    | some i => some (i + 1)
    | none => if r.query = q then some 0 else none

/-- Rerunning one query (lines 804-817): the new `(status,
error_message)` pair written back into the selected row. -/
def rerun_row (be : Backend) (query : String) : String × String :=
  match (test_pagination_continuity be query).1 with
  | .error e => ("FAILED", "Exception: " ++ e)
  | .ok (true, _) => ("PASSED", "")
  | .ok (false, msg) => ("FAILED", msg.getD "")

/-- In-place update `existing_results[i]['status'] = st;
existing_results[i]['error_message'] = em` (the row keeps its query). -/
def set_row (rows : List ResultRow) (i : Nat) (st em : String) : List ResultRow :=
  match rows[i]? with
  | some r => rows.set i { query := r.query, status := st, error_message := em }
  | none => rows

/-- The retry loop (lines 801-828): for each selected query, rerun the
checker and overwrite the row at `idx query`; also accumulates the
queries for which the checker was re-invoked, in order.  `idx` is the
`query_to_index` mapping computed once before the loop.  (The `none`
branch is unreachable in `retry_grpc_failed_queries`: every selected
query occurs among the rows.) -/
def retry_loop (be : Backend) (idx : String → Option Nat) :
    List (String × String) → List ResultRow → List ResultRow × List String
  | [], rows => (rows, [])
  | (q, _) :: rest, rows =>
    let new := rerun_row be q
    let rows1 :=
      match idx q with
      | some i => set_row rows i new.1 new.2
      | none => rows
    let next := retry_loop be idx rest rows1
    (next.1, q :: next.2)

/-- `retry_grpc_failed_queries` (lines 743-850) on parsed rows: select
the FAILED rows whose error text carries a gRPC/call-failed marker,
re-invoke the checker for each and overwrite that query's row in
place.  Returns the updated rows and the list of re-invoked queries. -/
def retry_grpc_failed_queries (be : Backend) (rows : List ResultRow) :
    List ResultRow × List String :=
  let grpc_failed_queries :=
    (rows.filter is_grpc_failure).map (fun r => (r.query, r.error_message))
  retry_loop be (query_to_index rows) grpc_failed_queries rows

/-! ## Request observers and test fixtures -/

/-- The `cursor` field of a request dict, when present. -/
def reqCursor (request : Json) : Option Json :=
  match request with
  | .obj fields => Json.lookup fields "cursor"
  | _ => none

/-- The serialized preprocessor response embedded in a request
(`feed_request_context.search_metadata.preprocessor_response`). -/
def reqPre (request : Json) : Option Json :=
  match request with
  | .obj fields =>
    match Json.lookup fields "feed_request_context" with
    | some (.obj frc) =>
      match Json.lookup frc "search_metadata" with
      | some (.obj sm) => Json.lookup sm "preprocessor_response"
      | _ => none
    | _ => none
  | _ => none

/-- A result item in the camelCase response shape, carrying a catalog
identifier, a product identifier and a cursor token. -/
def mkItem (catalogId productId : Json) (cursor : String) : Json :=
  .obj [("entityResponse", .obj [("catalogId", catalogId), ("productId", productId)]),
        ("cursor", .str cursor)]

/-- A page response with its items under `data.items`. -/
def mkPage (items : List Json) : Json :=
  .obj [("data", .obj [("items", .arr items)])]

/-- A mocked backend serving three fixed pages: the cursor-less request
gets `p1`, a request with cursor `c1` gets `p2`, one with cursor `c2`
gets `p3`. -/
def mockBackend (p1 p2 p3 : Json) (c1 c2 : String) : Backend where
  qul := fun _ => some (.obj [])
  grpc := fun request =>
    match reqCursor request with
    | none => .ok p1
    | some c =>
      if c = .str c1 then .ok p2
      else if c = .str c2 then .ok p3
      else .error "unexpected cursor"

/-- A mocked backend answering every fetch with the same fixed page. -/
def constBackend (p : Json) : Backend where
  qul := fun _ => some (.obj [])
  grpc := fun _ => .ok p

/-- A mocked backend whose preprocessor call always fails. -/
def noQulBackend : Backend where
  qul := fun _ => none
  grpc := fun _ => .error "unreachable"

/-- Is an external call a preprocessor (QUL) call? -/
def Event.isQul : Event → Bool
  | .qulCall _ => true
  | .grpcCall _ => false

/-- A page response is well formed when its items sit in a list and each
item yields an identifier and a cursor without raising.  Responses of
this shape make every Python operation of the checker safe, so all
backend-reported failures are folded into the returned pair. -/
def wf_response (r : Json) : Bool :=
  match get_items r with
  | .ok (.arr l) =>
    l.all (fun it => (get_item_identifier it).isOk && (extract_cursor it).isOk)
  | _ => false

/-- A compact item fixture: catalog id `k`, product id `k + 100`. -/
def itm (k : Int) (c : String) : Json := mkItem (.num k) (.num (k + 100)) c

/-- A two-item page fixture whose boundary items differ. -/
def pTwo : Json := mkPage [itm 1 "ca", itm 2 "cb"]

/-- A single-item page fixture. -/
def pOne : Json := mkPage [itm 1 "ca"]

/-- A two-item page whose second-last item carries an empty-string
cursor and no alternate-spelling cursor. -/
def pEmptyCur : Json := mkPage [mkItem (.num 1) (.num 101) "", mkItem (.num 2) (.num 102) "cb"]

/-- Result rows with a duplicated query text: a gRPC-failed row and a
PASSED row for the same query. -/
def rowsDup : List ResultRow :=
  [{ query := "q", status := "FAILED", error_message := "gRPC call failed: boom" },
   { query := "q", status := "PASSED", error_message := "" }]

/-- Result rows with pairwise distinct query texts. -/
def rowsDistinct : List ResultRow :=
  [{ query := "q1", status := "FAILED", error_message := "gRPC call failed: boom" },
   { query := "q2", status := "PASSED", error_message := "" },
   { query := "q3", status := "FAILED", error_message := "Page 1 last (Catalog ID=1, Product ID=101) != Page 2 first (Catalog ID=2, Product ID=102)" }]

/-! ## Basic lemmas about the primitives -/

theorem except_isOk_elim {ε α : Type} (x : Except ε α) (h : x.isOk = true) :
    ∃ b, x = .ok b := by
  cases x with
  | error e => simp [Except.isOk, Except.toBool] at h
  | ok b => exact ⟨b, rfl⟩


theorem pyIndex_arr_ok_mem {l : List Json} {i : Int} {x : Json}
    (h : pyIndex (.arr l) i = .ok x) : x ∈ l := by
  simp only [pyIndex] at h
  split at h
  all_goals split at h
  all_goals first
    | (injection h with h1; subst h1; exact List.get_mem _ _ _)
    | exact absurd h (by simp)

theorem pyIndex_arr_neg_exists {l : List Json} {i : Int} (hneg : i < 0)
    (hlen : 0 ≤ i + l.length) :
    ∃ x, pyIndex (.arr l) i = .ok x ∧ x ∈ l := by
  simp only [pyIndex, hneg, if_true]
  rw [dif_pos (⟨hlen, by omega⟩ :
    (0:Int) ≤ i + (l.length:Int) ∧ (i + (l.length:Int)).toNat < l.length)]
  exact ⟨_, rfl, List.get_mem _ _ _⟩

theorem pyIndex_arr_nonneg_exists {l : List Json} {i : Int} (hpos : 0 ≤ i)
    (hlt : i < l.length) :
    ∃ x, pyIndex (.arr l) i = .ok x ∧ x ∈ l := by
  have hni : ¬ i < 0 := by omega
  simp only [pyIndex, hni, if_false]
  rw [dif_pos (⟨hpos, by omega⟩ : (0:Int) ≤ i ∧ (i : Int).toNat < l.length)]
  exact ⟨_, rfl, List.get_mem _ _ _⟩

theorem pyTruthy_arr_of_length {l : List Json} (h : 1 ≤ l.length) :
    pyTruthy (.arr l) = true := by
  cases l with
  | nil => simp at h
  | cons a t => simp [pyTruthy, List.isEmpty]

theorem reqPre_build (q pre : String) (c : Json) (lim : Option Int) :
    reqPre (build_feed_request q pre c lim) = some (.str pre) := by
  rcases Bool.eq_false_or_eq_true (pyTruthy c) with hc | hc
  · rw [build_feed_request, if_pos hc]
    rfl
  · rw [build_feed_request, if_neg (show ¬ (pyTruthy c = true) by simp [hc])]
    rfl

theorem reqCursor_build_truthy (q pre : String) {c : Json} (lim : Option Int)
    (hc : pyTruthy c = true) :
    reqCursor (build_feed_request q pre c lim) = some c := by
  rw [build_feed_request, if_pos hc]
  rfl

theorem reqCursor_build_falsy (q pre : String) {c : Json} (lim : Option Int)
    (hc : pyTruthy c = false) :
    reqCursor (build_feed_request q pre c lim) = none := by
  rw [build_feed_request, if_neg (show ¬ (pyTruthy c = true) by simp [hc])]
  rfl

theorem build_feed_request_falsy_cursor (q pre : String) {c : Json} (lim : Option Int)
    (hc : pyTruthy c = false) :
    build_feed_request q pre c lim = build_feed_request q pre .null lim := by
  rw [build_feed_request, if_neg (show ¬ (pyTruthy c = true) by simp [hc]), build_feed_request,
    if_neg (show ¬ (pyTruthy Json.null = true) by simp [pyTruthy])]

theorem get_item_identifier_mkItem (a b : Json) (c : String) :
    get_item_identifier (mkItem a b c) = .ok (a, b) := by
  rfl

theorem extract_cursor_mkItem (a b : Json) {c : String} (hc : c ≠ "") :
    extract_cursor (mkItem a b c) = .ok (.str c) := by
  have h1 : pyGet (mkItem a b c) "cursor" = .ok (.str c) := rfl
  have h2 : pyTruthy (.str c) = true := by simp [pyTruthy, hc]
  rw [extract_cursor, h1]
  dsimp only
  rw [if_pos h2]

theorem get_items_mkPage (l : List Json) : get_items (mkPage l) = .ok (.arr l) := by
  rfl

theorem head_cons_of_head_eq {α : Type} {l : List α} {a : α} (h : l.head? = some a) :
    ∃ t, l = a :: t := by
  cases l with
  | nil => simp at h
  | cons x t => simp at h; exact ⟨t, by rw [h]⟩

theorem get_second_last_cursor_eq {r : Json} {l : List Json} {it : Json}
    (hitems : get_items r = .ok (.arr l)) (hn : 2 ≤ l.length)
    (hsl : pyIndex (.arr l) (-2) = .ok it) :
    get_second_last_cursor r = extract_cursor it := by
  rw [get_second_last_cursor, hitems]
  dsimp only
  rw [if_pos (pyTruthy_arr_of_length (by omega))]
  show (match pyLen (.arr l) with
        | .error e => Except.error e
        | .ok n =>
          if 2 ≤ n then
            match pyIndex (.arr l) (-2) with
            | .error e => Except.error e
            | .ok second_last_item => extract_cursor second_last_item
          else .ok .null) = extract_cursor it
  rw [show pyLen (.arr l) = .ok l.length from rfl]
  dsimp only
  rw [if_pos hn, hsl]

theorem page1_tail_unfold {be : Backend} {q pre : String} {r1 : Json} {l : List Json}
    {item_last c : Json} {id1 : Json × Json}
    (hitems : get_items r1 = .ok (.arr l))
    (hn : 2 ≤ l.length)
    (hlast : pyIndex (.arr l) (-1) = .ok item_last)
    (hslc : get_second_last_cursor r1 = .ok c)
    (hc : pyTruthy c = true)
    (hid : get_item_identifier item_last = .ok id1) :
    page1_tail be q pre r1 = page2_stage be q pre c item_last id1 := by
  unfold page1_tail
  rw [hitems]
  dsimp only
  rw [show pyLen (.arr l) = .ok l.length from rfl]
  dsimp only
  rw [if_neg (by omega : ¬ l.length < 2), hlast]
  dsimp only
  rw [hslc]
  dsimp only
  rw [if_neg (show ¬ ((!pyTruthy c) = true) by simp [hc]), hid]

theorem checker_to_page2 {be : Backend} {q : String} {qr r1 : Json} {l : List Json}
    {item_last c : Json} {id1 : Json × Json}
    (hqul : be.qul q = some qr)
    (hg : be.grpc (build_feed_request q (json_dumps qr) .null (some TEST_LIMIT)) = .ok r1)
    (hitems : get_items r1 = .ok (.arr l))
    (hn : 2 ≤ l.length)
    (hlast : pyIndex (.arr l) (-1) = .ok item_last)
    (hslc : get_second_last_cursor r1 = .ok c)
    (hc : pyTruthy c = true)
    (hid : get_item_identifier item_last = .ok id1) :
    test_pagination_continuity be q =
      ((page2_stage be q (json_dumps qr) c item_last id1).1,
       .qulCall q :: .grpcCall (build_feed_request q (json_dumps qr) .null (some TEST_LIMIT)) ::
         (page2_stage be q (json_dumps qr) c item_last id1).2) := by
  unfold test_pagination_continuity
  rw [hqul]
  dsimp only
  rw [hg]
  dsimp only
  rw [page1_tail_unfold hitems hn hlast hslc hc hid]

theorem page2_unfold {be : Backend} {q pre : String} {c1 li : Json} {ii : Json × Json}
    {r2 : Json} {l2 : List Json} {f2 la2 c2 : Json} {idf2 idl2 : Json × Json}
    (hg : be.grpc (build_feed_request q pre c1 (some TEST_LIMIT)) = .ok r2)
    (hitems : get_items r2 = .ok (.arr l2))
    (hn : 2 ≤ l2.length)
    (hf : pyIndex (.arr l2) 0 = .ok f2)
    (hla : pyIndex (.arr l2) (-1) = .ok la2)
    (hslc : get_second_last_cursor r2 = .ok c2)
    (hc : pyTruthy c2 = true)
    (hidf : get_item_identifier f2 = .ok idf2)
    (hidl : get_item_identifier la2 = .ok idl2) :
    page2_stage be q pre c1 li ii =
      ((page3_stage be q pre c2 li f2 la2 ii idf2 idl2).1,
       .grpcCall (build_feed_request q pre c1 (some TEST_LIMIT)) ::
         (page3_stage be q pre c2 li f2 la2 ii idf2 idl2).2) := by
  unfold page2_stage
  dsimp only
  rw [hg]
  dsimp only
  rw [hitems]
  dsimp only
  rw [show pyLen (.arr l2) = .ok l2.length from rfl]
  dsimp only
  rw [if_neg (by omega : ¬ l2.length < 2), hf]
  dsimp only
  rw [hla]
  dsimp only
  rw [hslc]
  dsimp only
  rw [if_neg (show ¬ ((!pyTruthy c2) = true) by simp [hc]), hidf]
  dsimp only
  rw [hidl]

theorem page3_unfold {be : Backend} {q pre : String} {c2 li f2 la2 : Json}
    {ii idf2 idl2 : Json × Json}
    {r3 : Json} {l3 : List Json} {f3 : Json} {idf3 : Json × Json}
    (hg : be.grpc (build_feed_request q pre c2 (some TEST_LIMIT)) = .ok r3)
    (hitems : get_items r3 = .ok (.arr l3))
    (hn : l3.length ≠ 0)
    (hf : pyIndex (.arr l3) 0 = .ok f3)
    (hidf : get_item_identifier f3 = .ok idf3) :
    page3_stage be q pre c2 li f2 la2 ii idf2 idl2 =
      (verify_continuity li f2 la2 f3 ii idf2 idl2 idf3,
       [.grpcCall (build_feed_request q pre c2 (some TEST_LIMIT))]) := by
  unfold page3_stage
  dsimp only
  rw [hg]
  dsimp only
  rw [hitems]
  dsimp only
  rw [show pyLen (.arr l3) = .ok l3.length from rfl]
  dsimp only
  rw [if_neg hn, hf]
  dsimp only
  rw [hidf]

theorem page3_stage_events (be : Backend) (q pre : String) (c2 li f2 la2 : Json)
    (ii idf2 idl2 : Json × Json) :
    (page3_stage be q pre c2 li f2 la2 ii idf2 idl2).2 =
      [.grpcCall (build_feed_request q pre c2 (some TEST_LIMIT))] := rfl

theorem page2_stage_events_head (be : Backend) (q pre : String) (c1 li : Json)
    (ii : Json × Json) :
    (page2_stage be q pre c1 li ii).2.head? =
      some (.grpcCall (build_feed_request q pre c1 (some TEST_LIMIT))) := by
  unfold page2_stage
  dsimp only
  repeat' split
  all_goals rfl

theorem page2_stage_events_shape (be : Backend) (q pre : String) (c1 li : Json)
    (ii : Json × Json) :
    ∀ e ∈ (page2_stage be q pre c1 li ii).2,
      ∃ c, e = Event.grpcCall (build_feed_request q pre c (some TEST_LIMIT)) := by
  intro e he
  unfold page2_stage at he
  dsimp only at he
  repeat' split at he
  all_goals simp only [List.mem_cons, List.mem_singleton, List.not_mem_nil, or_false] at he
  all_goals try exact ⟨c1, he⟩
  rcases he with he | he
  · exact ⟨c1, he⟩
  · rw [page3_stage_events] at he
    simp only [List.mem_singleton] at he
    exact ⟨_, he⟩

theorem page1_tail_events_shape (be : Backend) (q pre : String) (r1 : Json) :
    ∀ e ∈ (page1_tail be q pre r1).2,
      ∃ c, e = Event.grpcCall (build_feed_request q pre c (some TEST_LIMIT)) := by
  intro e he
  unfold page1_tail at he
  repeat' split at he
  all_goals first
    | simp only [List.not_mem_nil] at he
    | exact page2_stage_events_shape _ _ _ _ _ _ e he


theorem checker_events_shape {be : Backend} {q : String} {qr : Json}
    (hqul : be.qul q = some qr) :
    ∀ e ∈ (test_pagination_continuity be q).2,
      e = Event.qulCall q ∨
      ∃ c, e = Event.grpcCall (build_feed_request q (json_dumps qr) c (some TEST_LIMIT)) := by
  intro e he
  unfold test_pagination_continuity at he
  rw [hqul] at he
  dsimp only at he
  split at he
  · simp only [List.mem_cons, List.not_mem_nil, or_false] at he
    rcases he with he | he
    · exact Or.inl he
    · exact Or.inr ⟨.null, he⟩
  · simp only [List.mem_cons] at he
    rcases he with he | he | he
    · exact Or.inl he
    · exact Or.inr ⟨.null, he⟩
    · rcases page1_tail_events_shape be q (json_dumps qr) _ e he with ⟨c, hc⟩
      exact Or.inr ⟨c, hc⟩

theorem checker_qul_count (be : Backend) (q : String) :
    (test_pagination_continuity be q).2.countP Event.isQul = 1 := by
  cases hq : be.qul q with
  | none =>
    unfold test_pagination_continuity
    rw [hq]
    rfl
  | some qr =>
    unfold test_pagination_continuity
    rw [hq]
    dsimp only
    split
    · rfl
    · rename_i response1 heq
      have h0 : ((page1_tail be q (json_dumps qr) response1).2.countP Event.isQul) = 0 := by
        rw [List.countP_eq_zero]
        intro e he
        rcases page1_tail_events_shape _ _ _ _ e he with ⟨c, hc⟩
        subst hc
        simp [Event.isQul]
      simp [List.countP_cons, h0, Event.isQul]

/-! ## Claims -/

/-- Claim C3: For all items `a` and `b`, `compare_items` returns true iff
their `(catalogId, productId)` identifiers are componentwise equal and
the catalog id of `a` is not null; in particular two items that both
have a null catalog id and equal product ids are never a match. -/
theorem claim_C3 (a b : Json) (ida idb : Json × Json)
    (ha : get_item_identifier a = .ok ida) (hb : get_item_identifier b = .ok idb) :
    (compare_items a b = .ok true ↔ (ida = idb ∧ ida.1 ≠ Json.null)) ∧
    (ida.1 = Json.null → compare_items a b = .ok false) := by
  unfold compare_items
  rw [ha, hb]
  dsimp only
  constructor
  · constructor
    · intro h
      injection h with h1
      exact of_decide_eq_true h1
    · intro h
      rw [decide_eq_true h]
  · intro h
    rw [decide_eq_false (fun hcon => hcon.2 h)]

/-- Witness for C3: a concrete matching pair and a concrete
null-catalog pair. -/
theorem claim_C3_witness :
    compare_items (itm 1 "ca") (itm 1 "cb") = .ok true ∧
    compare_items (mkItem .null (.num 5) "ca") (mkItem .null (.num 5) "cb") = .ok false := by
  constructor
  · exact (claim_C3 (itm 1 "ca") (itm 1 "cb") (.num 1, .num 101) (.num 1, .num 101)
      rfl rfl).1.mpr ⟨rfl, by decide⟩
  · exact (claim_C3 (mkItem .null (.num 5) "ca") (mkItem .null (.num 5) "cb")
      (Json.null, .num 5) (Json.null, .num 5) rfl rfl).2 rfl

/-- Claim C5, counterexample: `get_items` is not total: on the response
`{"data": 42}` the membership test `'items' in response['data']` raises
`TypeError`, so the claim that it never raises on malformed nested
structure is false. -/
theorem claim_C5_counterexample :
    get_items (Json.obj [("data", Json.num 42)]) = .error "TypeError" := rfl

/-- Claim C5, amended: `get_items` returns without raising whenever every
value bound to a `data` key is itself a mapping (in particular on every
non-mapping response); it returns the list under `data.items` when
present (checked first), else a top-level `items` value, else the empty
sequence. -/
theorem claim_C5_amended (r : Json) :
    ((∀ fields d, r = Json.obj fields → Json.lookup fields "data" = some d →
        ∃ df, d = Json.obj df) → (get_items r).isOk = true) ∧
    (∀ fields df v, r = Json.obj fields → Json.lookup fields "data" = some (.obj df) →
        Json.lookup df "items" = some v → get_items r = .ok v) ∧
    (∀ fields df v, r = Json.obj fields → Json.lookup fields "data" = some (.obj df) →
        Json.lookup df "items" = none → Json.lookup fields "items" = some v →
        get_items r = .ok v) ∧
    (∀ fields df, r = Json.obj fields → Json.lookup fields "data" = some (.obj df) →
        Json.lookup df "items" = none → Json.lookup fields "items" = none →
        get_items r = .ok (.arr [])) ∧
    (∀ fields v, r = Json.obj fields → Json.lookup fields "data" = none →
        Json.lookup fields "items" = some v → get_items r = .ok v) ∧
    (∀ fields, r = Json.obj fields → Json.lookup fields "data" = none →
        Json.lookup fields "items" = none → get_items r = .ok (.arr [])) ∧
    ((∀ fields, r ≠ Json.obj fields) → get_items r = .ok (.arr [])) := by
  refine ⟨?_, ?_, ?_, ?_, ?_, ?_, ?_⟩
  · intro h
    cases r
    case obj fields =>
      simp only [get_items]
      cases hd : Json.lookup fields "data" with
      | none =>
        cases hi : Json.lookup fields "items" with
        | none => rfl
        | some v => rfl
      | some d =>
        obtain ⟨df, rfl⟩ := h fields d rfl hd
        dsimp only
        rw [show pyContains "items" (Json.obj df) = .ok (Json.lookup df "items").isSome from rfl]
        cases hv : Json.lookup df "items" with
        | none =>
          dsimp only [Option.isSome]
          cases hi : Json.lookup fields "items" with
          | none => rfl
          | some w => rfl
        | some v =>
          dsimp only [Option.isSome]
          rw [show pySubscriptStr (Json.obj df) "items" =
            (match Json.lookup df "items" with
             | some w => Except.ok w
             | none => Except.error "KeyError") from rfl, hv]
          rfl
    all_goals rfl
  · intro fields df v hr hd hv
    subst hr
    simp only [get_items]
    rw [hd]
    dsimp only
    rw [show pyContains "items" (Json.obj df) = .ok (Json.lookup df "items").isSome from rfl, hv]
    dsimp only [Option.isSome]
    rw [show pySubscriptStr (Json.obj df) "items" =
      (match Json.lookup df "items" with
       | some w => Except.ok w
       | none => Except.error "KeyError") from rfl, hv]
  · intro fields df v hr hd hv hi
    subst hr
    simp only [get_items]
    rw [hd]
    dsimp only
    rw [show pyContains "items" (Json.obj df) = .ok (Json.lookup df "items").isSome from rfl, hv]
    dsimp only [Option.isSome]
    rw [hi]
  · intro fields df hr hd hv hi
    subst hr
    simp only [get_items]
    rw [hd]
    dsimp only
    rw [show pyContains "items" (Json.obj df) = .ok (Json.lookup df "items").isSome from rfl, hv]
    dsimp only [Option.isSome]
    rw [hi]
  · intro fields v hr hd hi
    subst hr
    simp only [get_items]
    rw [hd]
    dsimp only
    rw [hi]
  · intro fields hr hd hi
    subst hr
    simp only [get_items]
    rw [hd]
    dsimp only
    rw [hi]
  · intro h
    cases r
    case obj fields => exact absurd rfl (h fields)
    all_goals rfl

/-- Witness for C5 (amended): the well-shaped two-item page and a
non-mapping response. -/
theorem claim_C5_witness :
    get_items pTwo = .ok (.arr [itm 1 "ca", itm 2 "cb"]) ∧
    get_items (Json.str "nope") = .ok (.arr []) := by
  constructor
  · exact (claim_C5_amended pTwo).2.1
      [("data", Json.obj [("items", Json.arr [itm 1 "ca", itm 2 "cb"])])]
      [("items", Json.arr [itm 1 "ca", itm 2 "cb"])]
      (Json.arr [itm 1 "ca", itm 2 "cb"]) rfl rfl rfl
  · exact (claim_C5_amended (Json.str "nope")).2.2.2.2.2.2
      (fun fields h => Json.noConfusion h)

/-- Claim C4, counterexample: With a backend serving a one-item page 1,
the checker fails as claimed, but the diagnostic reads "Not enough
items in page 1 (got 1, need at least 2)" and does not mention
"insufficient items". -/
theorem claim_C4_counterexample :
    (test_pagination_continuity (constBackend pOne) "q").1 =
      .ok (false, some "Not enough items in page 1 (got 1, need at least 2)") ∧
    strContains "Not enough items in page 1 (got 1, need at least 2)" "insufficient items"
      = false := by
  constructor
  · rfl
  · decide

/-- Claim C4, amended: If page 1 yields fewer than 2 items, the checker
returns Failed with the diagnostic "Not enough items in page 1 (got k,
need at least 2)" and issues no request for page 2: the trace stops at
the page-1 fetch. -/
theorem claim_C4_amended {be : Backend} {q : String} {qr r1 : Json} {l : List Json}
    (hqul : be.qul q = some qr)
    (hg : be.grpc (build_feed_request q (json_dumps qr) .null (some TEST_LIMIT)) = .ok r1)
    (hitems : get_items r1 = .ok (.arr l))
    (hn : l.length < 2) :
    test_pagination_continuity be q =
      (.ok (false, some ("Not enough items in page 1 (got " ++ toString l.length ++
         ", need at least 2)")),
       [.qulCall q, .grpcCall (build_feed_request q (json_dumps qr) .null (some TEST_LIMIT))]) := by
  unfold test_pagination_continuity
  rw [hqul]
  dsimp only
  rw [hg]
  dsimp only
  unfold page1_tail
  rw [hitems]
  dsimp only
  rw [show pyLen (.arr l) = .ok l.length from rfl]
  dsimp only
  rw [if_pos hn]

/-- Witness for C4 (amended), at the concrete one-item backend. -/
theorem claim_C4_witness :
    test_pagination_continuity (constBackend pOne) "q" =
      (.ok (false, some "Not enough items in page 1 (got 1, need at least 2)"),
       [.qulCall "q",
        .grpcCall (build_feed_request "q" (json_dumps (.obj [])) .null (some TEST_LIMIT))]) :=
  @claim_C4_amended (constBackend pOne) "q" (.obj []) pOne [itm 1 "ca"]
    rfl rfl rfl (by decide)

/-- Claim C10: An empty-string cursor behaves like an absent cursor:
`build_feed_request` omits the `cursor` key for an empty-string cursor
(yielding the first-page request), and when the second-last item of
page 1 carries an empty-string `cursor` (and no alternate-spelling
`Cursor`), cursor extraction yields `None` and the checker fails with
the missing-cursor diagnostic without fetching page 2. -/
theorem claim_C10 (qb pre : String) (lim : Option Int)
    {be : Backend} {q : String} {qr r1 : Json} {l : List Json} {item_sl : Json}
    (hqul : be.qul q = some qr)
    (hg : be.grpc (build_feed_request q (json_dumps qr) .null (some TEST_LIMIT)) = .ok r1)
    (hitems : get_items r1 = .ok (.arr l))
    (hn : 2 ≤ l.length)
    (hsl : pyIndex (.arr l) (-2) = .ok item_sl)
    (hcur : pyGet item_sl "cursor" = .ok (.str ""))
    (hCur : pyGet item_sl "Cursor" = .ok .null) :
    (build_feed_request qb pre (.str "") lim = build_feed_request qb pre .null lim ∧
     reqCursor (build_feed_request qb pre (.str "") lim) = none) ∧
    (get_second_last_cursor r1 = .ok .null ∧
     test_pagination_continuity be q =
       (.ok (false, some "Could not extract cursor from second-last item in page 1"),
        [.qulCall q,
         .grpcCall (build_feed_request q (json_dumps qr) .null (some TEST_LIMIT))])) := by
  have hex : extract_cursor item_sl = .ok .null := by
    unfold extract_cursor
    rw [hcur]
    dsimp only
    rw [if_neg (show ¬ (pyTruthy (.str "") = true) by simp [pyTruthy])]
    exact hCur
  have hslc : get_second_last_cursor r1 = .ok .null :=
    (get_second_last_cursor_eq hitems hn hsl).trans hex
  refine ⟨⟨?_, ?_⟩, hslc, ?_⟩
  · exact build_feed_request_falsy_cursor qb pre lim (by simp [pyTruthy])
  · exact reqCursor_build_falsy qb pre lim (by simp [pyTruthy])
  · unfold test_pagination_continuity
    rw [hqul]
    dsimp only
    rw [hg]
    dsimp only
    unfold page1_tail
    rw [hitems]
    dsimp only
    rw [show pyLen (.arr l) = .ok l.length from rfl]
    dsimp only
    rw [if_neg (by omega : ¬ l.length < 2)]
    obtain ⟨x, hx, _⟩ := @pyIndex_arr_neg_exists l (-1) (by omega) (by omega)
    rw [hx]
    dsimp only
    rw [hslc]
    dsimp only
    rw [if_pos (show (!pyTruthy Json.null) = true by simp [pyTruthy])]

/-- Witness for C10, at a concrete page whose second-last item has an
empty-string cursor. -/
theorem claim_C10_witness :
    test_pagination_continuity (constBackend pEmptyCur) "q" =
      (.ok (false, some "Could not extract cursor from second-last item in page 1"),
       [.qulCall "q",
        .grpcCall (build_feed_request "q" (json_dumps (.obj [])) .null (some TEST_LIMIT))]) :=
  (@claim_C10 "qb" "pre" none (constBackend pEmptyCur) "q" (.obj []) pEmptyCur
    [mkItem (.num 1) (.num 101) "", mkItem (.num 2) (.num 102) "cb"]
    (mkItem (.num 1) (.num 101) "")
    rfl rfl rfl (by decide) rfl rfl rfl).2.2

/-- Claim C1: When page 1 yields `n ≥ 2` items and the run proceeds, the
cursor supplied in the page-2 request is exactly the cursor extracted
(tolerating both spellings) from the second-to-last item `items[-2]`,
and — whenever the last item's cursor differs — never the last item's
cursor. -/
theorem claim_C1 {be : Backend} {q : String} {qr r1 : Json} {l : List Json}
    {item_sl item_last c : Json} {id1 : Json × Json}
    (hqul : be.qul q = some qr)
    (hg : be.grpc (build_feed_request q (json_dumps qr) .null (some TEST_LIMIT)) = .ok r1)
    (hitems : get_items r1 = .ok (.arr l))
    (hn : 2 ≤ l.length)
    (hsl : pyIndex (.arr l) (-2) = .ok item_sl)
    (hcur : extract_cursor item_sl = .ok c)
    (hc : pyTruthy c = true)
    (hlast : pyIndex (.arr l) (-1) = .ok item_last)
    (hid : get_item_identifier item_last = .ok id1) :
    get_second_last_cursor r1 = .ok c ∧
    reqCursor (build_feed_request q (json_dumps qr) c (some TEST_LIMIT)) = some c ∧
    (∃ rest, (test_pagination_continuity be q).2 =
      .qulCall q :: .grpcCall (build_feed_request q (json_dumps qr) .null (some TEST_LIMIT)) ::
      .grpcCall (build_feed_request q (json_dumps qr) c (some TEST_LIMIT)) :: rest) ∧
    (∀ cl, extract_cursor item_last = .ok cl → cl ≠ c →
      reqCursor (build_feed_request q (json_dumps qr) c (some TEST_LIMIT)) ≠ some cl) := by
  have hslc : get_second_last_cursor r1 = .ok c :=
    (get_second_last_cursor_eq hitems hn hsl).trans hcur
  have hrun := checker_to_page2 hqul hg hitems hn hlast hslc hc hid
  refine ⟨hslc, reqCursor_build_truthy _ _ _ hc, ?_, ?_⟩
  · obtain ⟨t, ht⟩ :=
      head_cons_of_head_eq (page2_stage_events_head be q (json_dumps qr) c item_last id1)
    refine ⟨t, ?_⟩
    rw [hrun]
    dsimp only
    rw [ht]
  · intro cl hcl hne
    rw [reqCursor_build_truthy _ _ _ hc]
    intro hcon
    injection hcon with h1
    exact hne h1.symm

/-- Witness for C1, at the concrete two-item fixed page: the request for
page 2 carries the first (second-to-last) item's cursor "ca", not the
last item's "cb". -/
theorem claim_C1_witness :
    get_second_last_cursor pTwo = .ok (.str "ca") ∧
    reqCursor (build_feed_request "q" (json_dumps (.obj [])) (.str "ca") (some TEST_LIMIT)) =
      some (.str "ca") ∧
    (∃ rest, (test_pagination_continuity (constBackend pTwo) "q").2 =
      .qulCall "q" ::
      .grpcCall (build_feed_request "q" (json_dumps (.obj [])) .null (some TEST_LIMIT)) ::
      .grpcCall (build_feed_request "q" (json_dumps (.obj [])) (.str "ca") (some TEST_LIMIT)) ::
      rest) ∧
    (∀ cl, extract_cursor (itm 2 "cb") = .ok cl → cl ≠ .str "ca" →
      reqCursor (build_feed_request "q" (json_dumps (.obj [])) (.str "ca") (some TEST_LIMIT)) ≠
        some cl) :=
  @claim_C1 (constBackend pTwo) "q" (.obj []) pTwo [itm 1 "ca", itm 2 "cb"]
    (itm 1 "ca") (itm 2 "cb") (.str "ca") (.num 2, .num 102)
    rfl rfl rfl (by decide) rfl rfl rfl rfl rfl

/-- Claim C2: When all three pages are fetched and both boundary
comparisons evaluate (to any outcomes `m1`, `m2`), the final result is
`(m1 && m2, errorDetail)` where `errorDetail` joins, with `"; "`, one
mismatch diagnostic per failed boundary naming the mismatched
catalog/product key values: both checks are evaluated and reported
even when the first fails. -/
theorem claim_C2 {be : Backend} {q : String} {qr r1 r2 r3 : Json}
    {l1 l2 l3 : List Json} {li1 c1 f2 la2 c2 f3 : Json}
    {id1 idf2 idl2 idf3 : Json × Json} {m1 m2 : Bool}
    (hqul : be.qul q = some qr)
    (hg1 : be.grpc (build_feed_request q (json_dumps qr) .null (some TEST_LIMIT)) = .ok r1)
    (hitems1 : get_items r1 = .ok (.arr l1)) (hn1 : 2 ≤ l1.length)
    (hlast1 : pyIndex (.arr l1) (-1) = .ok li1)
    (hslc1 : get_second_last_cursor r1 = .ok c1) (hc1 : pyTruthy c1 = true)
    (hid1 : get_item_identifier li1 = .ok id1)
    (hg2 : be.grpc (build_feed_request q (json_dumps qr) c1 (some TEST_LIMIT)) = .ok r2)
    (hitems2 : get_items r2 = .ok (.arr l2)) (hn2 : 2 ≤ l2.length)
    (hf2 : pyIndex (.arr l2) 0 = .ok f2) (hla2 : pyIndex (.arr l2) (-1) = .ok la2)
    (hslc2 : get_second_last_cursor r2 = .ok c2) (hc2 : pyTruthy c2 = true)
    (hidf2 : get_item_identifier f2 = .ok idf2) (hidl2 : get_item_identifier la2 = .ok idl2)
    (hg3 : be.grpc (build_feed_request q (json_dumps qr) c2 (some TEST_LIMIT)) = .ok r3)
    (hitems3 : get_items r3 = .ok (.arr l3)) (hn3 : l3.length ≠ 0)
    (hf3 : pyIndex (.arr l3) 0 = .ok f3) (hidf3 : get_item_identifier f3 = .ok idf3)
    (hm1 : compare_items li1 f2 = .ok m1) (hm2 : compare_items la2 f3 = .ok m2) :
    (test_pagination_continuity be q).1 =
      .ok (m1 && m2,
        if m1 && m2 then none
        else some (String.intercalate "; "
          ((if m1 then [] else [boundary_error_detail "Page 1" "Page 2" id1 idf2]) ++
           (if m2 then [] else [boundary_error_detail "Page 2" "Page 3" idl2 idf3])))) := by
  have h1 := checker_to_page2 hqul hg1 hitems1 hn1 hlast1 hslc1 hc1 hid1
  have h2 := @page2_unfold be q (json_dumps qr) c1 li1 id1 r2 l2 f2 la2 c2 idf2 idl2
    hg2 hitems2 hn2 hf2 hla2 hslc2 hc2 hidf2 hidl2
  have h3 := @page3_unfold be q (json_dumps qr) c2 li1 f2 la2 id1 idf2 idl2 r3 l3 f3 idf3
    hg3 hitems3 hn3 hf3 hidf3
  rw [h1]
  dsimp only
  rw [h2]
  dsimp only
  rw [h3]
  dsimp only
  unfold verify_continuity
  rw [hm1]
  dsimp only
  rw [hm2]
  dsimp only
  cases m1 <;> cases m2 <;> simp

/-- Witness for C2: a fixed two-item page served for all three fetches
breaks both boundaries, and both mismatch diagnostics are reported
joined with "; ". -/
theorem claim_C2_witness :
    (test_pagination_continuity (constBackend pTwo) "q").1 =
      .ok (false, some (String.intercalate "; "
        [boundary_error_detail "Page 1" "Page 2" (.num 2, .num 102) (.num 1, .num 101),
         boundary_error_detail "Page 2" "Page 3" (.num 2, .num 102) (.num 1, .num 101)])) :=
  @claim_C2 (constBackend pTwo) "q" (.obj []) pTwo pTwo pTwo
    [itm 1 "ca", itm 2 "cb"] [itm 1 "ca", itm 2 "cb"] [itm 1 "ca", itm 2 "cb"]
    (itm 2 "cb") (.str "ca") (itm 1 "ca") (itm 2 "cb") (.str "ca") (itm 1 "ca")
    (.num 2, .num 102) (.num 1, .num 101) (.num 2, .num 102) (.num 1, .num 101)
    false false
    rfl rfl rfl (by decide) rfl rfl rfl rfl
    rfl rfl (by decide) rfl rfl rfl rfl rfl rfl
    rfl rfl (by decide) rfl rfl
    rfl rfl

theorem wf_response_elim {r : Json} (h : wf_response r = true) :
    ∃ l, get_items r = .ok (.arr l) ∧
      ∀ it ∈ l, (get_item_identifier it).isOk = true ∧ (extract_cursor it).isOk = true := by
  unfold wf_response at h
  split at h
  · next l heq =>
    refine ⟨l, heq, ?_⟩
    intro it hit
    have := (List.all_eq_true.mp h) it hit
    simpa [Bool.and_eq_true] using this
  · exact absurd h (by simp)

theorem get_second_last_cursor_isOk {r : Json} {l : List Json}
    (hitems : get_items r = .ok (.arr l))
    (hmem : ∀ it ∈ l, (extract_cursor it).isOk = true) :
    (get_second_last_cursor r).isOk = true := by
  unfold get_second_last_cursor
  rw [hitems]
  dsimp only
  rcases Bool.eq_false_or_eq_true (pyTruthy (.arr l)) with ht | ht
  · rw [if_pos ht]
    rw [show pyLen (.arr l) = .ok l.length from rfl]
    dsimp only
    rcases Nat.lt_or_ge l.length 2 with h2 | h2
    · rw [if_neg (by omega)]
      rfl
    · rw [if_pos h2]
      obtain ⟨x, hx, hxm⟩ := @pyIndex_arr_neg_exists l (-2) (by omega) (by omega)
      rw [hx]
      exact hmem x hxm
  · rw [if_neg (by simp [ht])]
    rfl

theorem verify_continuity_isOk {a b c d : Json} {ia ib ic idd : Json × Json}
    (ha : (get_item_identifier a).isOk = true) (hb : (get_item_identifier b).isOk = true)
    (hc : (get_item_identifier c).isOk = true) (hd : (get_item_identifier d).isOk = true) :
    (verify_continuity a b c d ia ib ic idd).isOk = true := by
  obtain ⟨pa, hpa⟩ := except_isOk_elim _ ha
  obtain ⟨pb, hpb⟩ := except_isOk_elim _ hb
  obtain ⟨pc, hpc⟩ := except_isOk_elim _ hc
  obtain ⟨pd, hpd⟩ := except_isOk_elim _ hd
  have hcmp1 : compare_items a b = .ok (decide (pa = pb ∧ pa.1 ≠ Json.null)) := by
    unfold compare_items
    rw [hpa]
    dsimp only
    rw [hpb]
  have hcmp2 : compare_items c d = .ok (decide (pc = pd ∧ pc.1 ≠ Json.null)) := by
    unfold compare_items
    rw [hpc]
    dsimp only
    rw [hpd]
  unfold verify_continuity
  rw [hcmp1]
  dsimp only
  rw [hcmp2]
  dsimp only
  split <;> rfl

theorem page3_stage_isOk {be : Backend} {q pre : String} {c2 li f2 la2 : Json}
    {ii idf2 idl2 : Json × Json}
    (hWF : ∀ req r, be.grpc req = .ok r → wf_response r = true)
    (hli : (get_item_identifier li).isOk = true)
    (hf2 : (get_item_identifier f2).isOk = true)
    (hla2 : (get_item_identifier la2).isOk = true) :
    (page3_stage be q pre c2 li f2 la2 ii idf2 idl2).1.isOk = true := by
  unfold page3_stage
  dsimp only
  cases hg : be.grpc (build_feed_request q pre c2 (some TEST_LIMIT)) with
  | error e => rfl
  | ok r3 =>
    dsimp only
    obtain ⟨l3, hitems3, hmem3⟩ := wf_response_elim (hWF _ _ hg)
    rw [hitems3]
    dsimp only
    rw [show pyLen (.arr l3) = .ok l3.length from rfl]
    dsimp only
    rcases Nat.eq_zero_or_pos l3.length with h0 | h0
    · rw [if_pos h0]
      rfl
    · rw [if_neg (by omega)]
      obtain ⟨f3, hf3, hf3m⟩ := @pyIndex_arr_nonneg_exists l3 0 (by omega) (by omega)
      rw [hf3]
      dsimp only
      obtain ⟨p3, hp3⟩ := except_isOk_elim _ (hmem3 f3 hf3m).1
      rw [hp3]
      dsimp only
      exact verify_continuity_isOk hli hf2 hla2 (hmem3 f3 hf3m).1

theorem page2_stage_isOk {be : Backend} {q pre : String} {c1 li : Json} {ii : Json × Json}
    (hWF : ∀ req r, be.grpc req = .ok r → wf_response r = true)
    (hli : (get_item_identifier li).isOk = true) :
    (page2_stage be q pre c1 li ii).1.isOk = true := by
  unfold page2_stage
  dsimp only
  cases hg : be.grpc (build_feed_request q pre c1 (some TEST_LIMIT)) with
  | error e => rfl
  | ok r2 =>
    dsimp only
    obtain ⟨l2, hitems2, hmem2⟩ := wf_response_elim (hWF _ _ hg)
    rw [hitems2]
    dsimp only
    rw [show pyLen (.arr l2) = .ok l2.length from rfl]
    dsimp only
    rcases Nat.lt_or_ge l2.length 2 with h2 | h2
    · rw [if_pos h2]
      rfl
    · rw [if_neg (by omega)]
      obtain ⟨f2, hf2, hf2m⟩ := @pyIndex_arr_nonneg_exists l2 0 (by omega) (by omega)
      rw [hf2]
      dsimp only
      obtain ⟨la2, hla2, hla2m⟩ := @pyIndex_arr_neg_exists l2 (-1) (by omega) (by omega)
      rw [hla2]
      dsimp only
      obtain ⟨c2, hc2⟩ := except_isOk_elim _
        (get_second_last_cursor_isOk hitems2 (fun it h => (hmem2 it h).2))
      rw [hc2]
      dsimp only
      rcases Bool.eq_false_or_eq_true (pyTruthy c2) with htr | htr
      · rw [if_neg (by simp [htr])]
        obtain ⟨pf2, hpf2⟩ := except_isOk_elim _ (hmem2 f2 hf2m).1
        rw [hpf2]
        dsimp only
        obtain ⟨pl2, hpl2⟩ := except_isOk_elim _ (hmem2 la2 hla2m).1
        rw [hpl2]
        dsimp only
        exact page3_stage_isOk hWF hli (hmem2 f2 hf2m).1 (hmem2 la2 hla2m).1
      · rw [if_pos (by simp [htr])]
        rfl

theorem page1_tail_isOk {be : Backend} {q pre : String} {r1 : Json}
    (hWF : ∀ req r, be.grpc req = .ok r → wf_response r = true)
    (hwf1 : wf_response r1 = true) :
    (page1_tail be q pre r1).1.isOk = true := by
  obtain ⟨l1, hitems1, hmem1⟩ := wf_response_elim hwf1
  unfold page1_tail
  rw [hitems1]
  dsimp only
  rw [show pyLen (.arr l1) = .ok l1.length from rfl]
  dsimp only
  rcases Nat.lt_or_ge l1.length 2 with h2 | h2
  · rw [if_pos h2]
    rfl
  · rw [if_neg (by omega)]
    obtain ⟨li, hli, hlim⟩ := @pyIndex_arr_neg_exists l1 (-1) (by omega) (by omega)
    rw [hli]
    dsimp only
    obtain ⟨c1, hc1⟩ := except_isOk_elim _
      (get_second_last_cursor_isOk hitems1 (fun it h => (hmem1 it h).2))
    rw [hc1]
    dsimp only
    rcases Bool.eq_false_or_eq_true (pyTruthy c1) with htr | htr
    · rw [if_neg (by simp [htr])]
      obtain ⟨p1, hp1⟩ := except_isOk_elim _ (hmem1 li hlim).1
      rw [hp1]
      dsimp only
      exact page2_stage_isOk hWF (hmem1 li hlim).1
    · rw [if_pos (by simp [htr])]
      rfl

theorem verify_continuity_ok_pairs {a b c d : Json} {ia ib ic idd : Json × Json} :
    ∀ s dd, verify_continuity a b c d ia ib ic idd = .ok (s, dd) → (dd = none ↔ s = true) := by
  intro s dd h
  unfold verify_continuity at h
  repeat' split at h
  all_goals first
    | (injection h with h1; injection h1 with hs hd; subst hs; subst hd; simp)
    | exact absurd h (by simp)

theorem page3_ok_pairs {be : Backend} {q pre : String} {c2 li f2 la2 : Json}
    {ii idf2 idl2 : Json × Json} :
    ∀ s d, (page3_stage be q pre c2 li f2 la2 ii idf2 idl2).1 = .ok (s, d) →
      (d = none ↔ s = true) := by
  intro s d h
  unfold page3_stage at h
  repeat' first
    | split at h
    | dsimp only at h
  all_goals first
    | exact verify_continuity_ok_pairs s d h
    | (injection h with h1; injection h1 with hs hd; subst hs; subst hd; simp)
    | exact absurd h (by simp)

theorem page2_ok_pairs {be : Backend} {q pre : String} {c1 li : Json} {ii : Json × Json} :
    ∀ s d, (page2_stage be q pre c1 li ii).1 = .ok (s, d) → (d = none ↔ s = true) := by
  intro s d h
  unfold page2_stage at h
  repeat' first
    | split at h
    | dsimp only at h
  all_goals first
    | exact page3_ok_pairs s d h
    | (injection h with h1; injection h1 with hs hd; subst hs; subst hd; simp)
    | exact absurd h (by simp)

theorem page1_tail_ok_pairs {be : Backend} {q pre : String} {r1 : Json} :
    ∀ s d, (page1_tail be q pre r1).1 = .ok (s, d) → (d = none ↔ s = true) := by
  intro s d h
  unfold page1_tail at h
  repeat' first
    | split at h
    | dsimp only at h
  all_goals first
    | exact page2_ok_pairs s d h
    | (injection h with h1; injection h1 with hs hd; subst hs; subst hd; simp)
    | exact absurd h (by simp)

/-- Claim C6: The checker returns a `(success, errorDetail)` pair with
`errorDetail = None` exactly when `success` is true; and whenever every
fetched page response is well formed, the checker never raises — all
backend-reported failures (preprocessor failure, transport failure,
too few items, missing cursor, boundary mismatch) are folded into an
ordinary returned pair. -/
theorem claim_C6 (be : Backend) (q : String) :
    (∀ s d, (test_pagination_continuity be q).1 = .ok (s, d) → (d = none ↔ s = true)) ∧
    ((∀ req r, be.grpc req = .ok r → wf_response r = true) →
      (test_pagination_continuity be q).1.isOk = true) := by
  constructor
  · intro s d h
    unfold test_pagination_continuity at h
    repeat' first
      | split at h
      | dsimp only at h
    all_goals first
      | exact page1_tail_ok_pairs s d h
      | (injection h with h1; injection h1 with hs hd; subst hs; subst hd; simp)
  · intro hWF
    unfold test_pagination_continuity
    cases hq : be.qul q with
    | none => rfl
    | some qr =>
      dsimp only
      cases hg : be.grpc (build_feed_request q (json_dumps qr) .null (some TEST_LIMIT)) with
      | error e => rfl
      | ok r1 =>
        dsimp only
        exact page1_tail_isOk hWF (hWF _ _ hg)

/-- Witness for C6: at the constant two-item-page backend every page is
well formed, so the run is exception-free, and the returned failing
pair carries a non-`None` detail. -/
theorem claim_C6_witness :
    (test_pagination_continuity (constBackend pTwo) "q").1.isOk = true :=
  (claim_C6 (constBackend pTwo) "q").2
    (fun req r h => by injection h with h1; rw [← h1]; decide)

/-- Claim C7: In every run the preprocessor is called exactly once; every
page request issued embeds the same serialized preprocessor result
(that of the single call); and when the preprocessor call fails the
checker returns Failed immediately and issues no page fetches. -/
theorem claim_C7 (be : Backend) (q : String) :
    (test_pagination_continuity be q).2.countP Event.isQul = 1 ∧
    (∀ qr, be.qul q = some qr →
      ∀ req, Event.grpcCall req ∈ (test_pagination_continuity be q).2 →
        reqPre req = some (.str (json_dumps qr))) ∧
    (be.qul q = none →
      test_pagination_continuity be q =
        (.ok (false, some "Failed to get QUL response"), [.qulCall q])) := by
  refine ⟨checker_qul_count be q, ?_, ?_⟩
  · intro qr hqr req hmem
    rcases checker_events_shape hqr _ hmem with h | ⟨c, hc⟩
    · exact absurd h (by simp)
    · injection hc with h1
      rw [h1, reqPre_build]
  · intro h
    unfold test_pagination_continuity
    rw [h]

/-- Witness for C7: the constant-page backend and the failing-QUL
backend at a concrete query. -/
theorem claim_C7_witness :
    (test_pagination_continuity (constBackend pTwo) "q").2.countP Event.isQul = 1 ∧
    reqPre (build_feed_request "q" (json_dumps (.obj [])) .null (some TEST_LIMIT)) =
      some (.str (json_dumps (.obj []))) ∧
    test_pagination_continuity noQulBackend "q" =
      (.ok (false, some "Failed to get QUL response"), [.qulCall "q"]) := by
  refine ⟨(claim_C7 (constBackend pTwo) "q").1, ?_, (claim_C7 noQulBackend "q").2.2 rfl⟩
  exact (claim_C7 (constBackend pTwo) "q").2.1 (.obj []) rfl
    (build_feed_request "q" (json_dumps (.obj [])) .null (some TEST_LIMIT))
    (by decide)

/-- Claim C8: The batch runner produces exactly one result row per input
query, in order — row `i` is the checker outcome for query `i` — each
row's status is PASSED or FAILED and carries its query text, and the
processing of a batch splits over concatenation, so no query's failure
(exceptions included, which `run_query` folds into a FAILED row)
aborts the remaining queries. -/
theorem claim_C8 (be : Backend) (qs qs1 qs2 : List String) :
    (batch_run be qs).length = qs.length ∧
    (∀ i, (batch_run be qs).get? i = (qs.get? i).map (run_query be)) ∧
    (∀ q, (run_query be q).query = q ∧
      ((run_query be q).status = "PASSED" ∨ (run_query be q).status = "FAILED")) ∧
    batch_run be (qs1 ++ qs2) = batch_run be qs1 ++ batch_run be qs2 := by
  refine ⟨?_, ?_, ?_, ?_⟩
  · simp [batch_run]
  · intro i
    simp [batch_run, List.getElem?_map]
  · intro q
    constructor
    · unfold run_query
      split <;> rfl
    · unfold run_query
      split
      · exact Or.inr rfl
      · exact Or.inl rfl
      · exact Or.inr rfl
  · simp [batch_run]

/-- Witness for C8: a concrete two-query batch against the constant
backend. -/
theorem claim_C8_witness :
    (batch_run (constBackend pTwo) ["a", "b"]).length = 2 ∧
    (batch_run (constBackend pTwo) ["a", "b"]).get? 0 =
      some (run_query (constBackend pTwo) "a") ∧
    ((run_query (constBackend pTwo) "a").status = "PASSED" ∨
      (run_query (constBackend pTwo) "a").status = "FAILED") := by
  refine ⟨?_, ?_, ((claim_C8 (constBackend pTwo) ["a", "b"] [] []).2.2.1 "a").2⟩
  · exact (claim_C8 (constBackend pTwo) ["a", "b"] [] []).1
  · exact ((claim_C8 (constBackend pTwo) ["a", "b"] [] []).2.1 0)


/-- Claim C9, counterexample: With a duplicated query text — a FAILED row
with a gRPC error at index 0 and a PASSED row for the same query at
index 1 — the rerun updates the LAST row with that query text: the
PASSED entry at index 1 is overwritten and the selected FAILED entry
at index 0 is left as it was, contradicting the claim. -/
theorem claim_C9_counterexample :
    rowsDup[1]? = some { query := "q", status := "PASSED", error_message := "" } ∧
    (retry_grpc_failed_queries noQulBackend rowsDup).1[1]? =
      some { query := "q", status := "FAILED",
             error_message := "Failed to get QUL response" } ∧
    (retry_grpc_failed_queries noQulBackend rowsDup).1[0]? =
      some { query := "q", status := "FAILED", error_message := "gRPC call failed: boom" } :=
  ⟨rfl, by decide, by decide⟩

theorem set_row_length (rows : List ResultRow) (j : Nat) (st em : String) :
    (set_row rows j st em).length = rows.length := by
  unfold set_row
  split
  · exact List.length_set rows j _
  · rfl

theorem retry_loop_length (be : Backend) (idx : String → Option Nat) :
    ∀ sel rows, (retry_loop be idx sel rows).1.length = rows.length := by
  intro sel
  induction sel with
  | nil => intro rows; rfl
  | cons p rest ih =>
    intro rows
    rcases p with ⟨pq, pe⟩
    unfold retry_loop
    dsimp only
    rw [ih]
    split
    · exact set_row_length _ _ _ _
    · rfl

theorem retry_loop_invocations (be : Backend) (idx : String → Option Nat) :
    ∀ sel rows, (retry_loop be idx sel rows).2 = sel.map Prod.fst := by
  intro sel
  induction sel with
  | nil => intro rows; rfl
  | cons p rest ih =>
    intro rows
    rcases p with ⟨pq, pe⟩
    unfold retry_loop
    dsimp only
    rw [ih]
    rfl

theorem set_row_get_other {rows : List ResultRow} {i j : Nat} {st em : String}
    (hne : j ≠ i) : (set_row rows j st em)[i]? = rows[i]? := by
  unfold set_row
  split
  · exact List.getElem?_set_ne hne
  · rfl

theorem set_row_get_self {rows : List ResultRow} {i : Nat} {r : ResultRow} {st em : String}
    (hr : rows[i]? = some r) :
    (set_row rows i st em)[i]? =
      some { query := r.query, status := st, error_message := em } := by
  unfold set_row
  rw [hr]
  exact List.getElem?_set_eq_of_lt _ (List.getElem?_eq_some_iff.mp hr).1

theorem query_to_index_spec :
    ∀ {rows : List ResultRow} {q : String} {i : Nat},
      query_to_index rows q = some i → ∃ h : i < rows.length, rows[i].query = q := by
  intro rows
  induction rows with
  | nil => intro q i h; simp [query_to_index] at h
  | cons r rest ih =>
    intro q i h
    unfold query_to_index at h
    split at h
    · next j hj =>
      injection h with h1
      subst h1
      obtain ⟨hlt, hq⟩ := ih hj
      exact ⟨Nat.succ_lt_succ hlt, by simpa using hq⟩
    · split at h
      · injection h with h1
        subst h1
        next hq => exact ⟨Nat.succ_pos _, by simpa using hq⟩
      · exact absurd h (by simp)

theorem query_to_index_none {q : String} :
    ∀ {rows : List ResultRow}, (∀ r ∈ rows, r.query ≠ q) → query_to_index rows q = none := by
  intro rows
  induction rows with
  | nil => intro _; rfl
  | cons r rest ih =>
    intro h
    unfold query_to_index
    rw [ih (fun r' hr' => h r' (List.mem_cons_of_mem _ hr'))]
    rw [if_neg (h r (List.mem_cons_self _ _))]

theorem query_to_index_nodup :
    ∀ {rows : List ResultRow} {q : String} {i : Nat},
      (rows.map (fun r => r.query)).Nodup → ∀ hi : i < rows.length,
      rows[i].query = q → query_to_index rows q = some i := by
  intro rows
  induction rows with
  | nil => intro q i _ hi; simp at hi
  | cons r rest ih =>
    intro q i hnd hi hq
    have hnd2 : r.query ∉ rest.map (fun r => r.query) ∧
        (rest.map (fun r => r.query)).Nodup := by
      rw [List.map_cons] at hnd
      exact List.nodup_cons.mp hnd
    unfold query_to_index
    cases i with
    | zero =>
      have hqr : r.query = q := by simpa using hq
      have hnone : query_to_index rest q = none := by
        apply query_to_index_none
        intro r' hr' hcon
        exact hnd2.1 (hqr ▸ hcon ▸ List.mem_map_of_mem _ hr')
      rw [hnone, if_pos hqr]
    | succ j =>
      have hjlen : j < rest.length := by simpa using hi
      have hjq : rest[j].query = q := by simpa using hq
      rw [ih hnd2.2 hjlen hjq]

theorem retry_loop_untouched (be : Backend) (idx : String → Option Nat) :
    ∀ sel (rows : List ResultRow) (i : Nat), (∀ p ∈ sel, idx p.1 ≠ some i) →
      (retry_loop be idx sel rows).1[i]? = rows[i]? := by
  intro sel
  induction sel with
  | nil => intro rows i _; rfl
  | cons p rest ih =>
    intro rows i h
    rcases p with ⟨pq, pe⟩
    unfold retry_loop
    dsimp only
    rw [ih _ _ (fun p' hp' => h p' (List.mem_cons_of_mem _ hp'))]
    cases hx : idx pq with
    | none => rfl
    | some j =>
      have hji : j ≠ i := fun hcon => h (pq, pe) (List.mem_cons_self _ _) (by rw [hx, hcon])
      exact set_row_get_other hji

theorem retry_loop_touched (be : Backend) (idx : String → Option Nat) :
    ∀ sel (rows : List ResultRow) (i : Nat) (q0 : String) (r0 : ResultRow),
      (∀ p ∈ sel, idx p.1 = some i → p.1 = q0) →
      (∃ p ∈ sel, idx p.1 = some i) →
      rows[i]? = some r0 → r0.query = q0 →
      (retry_loop be idx sel rows).1[i]? =
        some { query := q0, status := (rerun_row be q0).1,
               error_message := (rerun_row be q0).2 } := by
  intro sel
  induction sel with
  | nil =>
    intro rows i q0 r0 _ hex _ _
    rcases hex with ⟨p, hp, _⟩
    simp at hp
  | cons p rest ih =>
    intro rows i q0 r0 hall hex hr hq
    rcases p with ⟨pq, pe⟩
    unfold retry_loop
    dsimp only
    by_cases hpi : idx pq = some i
    · have hq0 : pq = q0 := hall (pq, pe) (List.mem_cons_self _ _) hpi
      subst hq0
      rw [hpi]
      dsimp only
      by_cases hex2 : ∃ p ∈ rest, idx p.1 = some i
      · refine ih _ i pq
          ⟨r0.query, (rerun_row be pq).1, (rerun_row be pq).2⟩
          (fun p' hp' => hall p' (List.mem_cons_of_mem _ hp'))
          hex2 (set_row_get_self hr) hq
      · rw [retry_loop_untouched be idx rest _ i
          (fun p' hp' hcon => hex2 ⟨p', hp', hcon⟩)]
        rw [set_row_get_self hr, hq]
    · have hex2 : ∃ p ∈ rest, idx p.1 = some i := by
        rcases hex with ⟨p', hp', hip⟩
        rcases List.mem_cons.mp hp' with h1 | h1
        · subst h1
          exact absurd hip hpi
        · exact ⟨p', h1, hip⟩
      cases hx : idx pq with
      | none =>
        exact ih _ i q0 r0 (fun p' hp' => hall p' (List.mem_cons_of_mem _ hp')) hex2 hr hq
      | some j =>
        have hji : j ≠ i := fun hcon => hpi (by rw [hx, hcon])
        exact ih _ i q0 r0 (fun p' hp' => hall p' (List.mem_cons_of_mem _ hp')) hex2
          (by rw [set_row_get_other hji]; exact hr) hq

/-- Claim C9, amended: Provided no query text appears more than once among
the rows, `retry_grpc_failed_queries` re-invokes the checker for
exactly the FAILED rows whose error text carries a gRPC/call-failed
marker (in order), overwrites exactly those rows in place with the
rerun outcome (keeping their query), and leaves every other row — in
particular every PASSED row — unchanged.  (With duplicate query texts
the update targets the last row with that text, which can overwrite a
PASSED row: see the counterexample.) -/
theorem claim_C9_amended (be : Backend) (rows : List ResultRow)
    (hnd : (rows.map (fun r => r.query)).Nodup) :
    (retry_grpc_failed_queries be rows).2 =
      (rows.filter is_grpc_failure).map (fun r => r.query) ∧
    (retry_grpc_failed_queries be rows).1 =
      rows.map (fun r =>
        if is_grpc_failure r then
          { query := r.query, status := (rerun_row be r.query).1,
            error_message := (rerun_row be r.query).2 }
        else r) := by
  constructor
  · unfold retry_grpc_failed_queries
    dsimp only
    rw [retry_loop_invocations, List.map_map]
    rfl
  · apply List.ext_getElem?
    intro i
    rw [List.getElem?_map]
    unfold retry_grpc_failed_queries
    dsimp only
    cases hr : rows[i]? with
    | none =>
      apply List.getElem?_eq_none
      rw [retry_loop_length]
      exact List.getElem?_eq_none_iff.mp hr
    | some r =>
      dsimp only [Option.map]
      have hilen : i < rows.length := (List.getElem?_eq_some_iff.mp hr).1
      have hri : rows[i] = r := by
        rw [List.getElem?_eq_getElem hilen] at hr
        injection hr
      have hmem : r ∈ rows := hri ▸ List.getElem_mem hilen
      by_cases hg : is_grpc_failure r = true
      · rw [if_pos hg]
        apply retry_loop_touched
        · intro p hp hpi
          obtain ⟨hlt, hq⟩ := query_to_index_spec hpi
          rw [← hq, hri]
        · refine ⟨(r.query, r.error_message), ?_, ?_⟩
          · exact List.mem_map_of_mem _ (List.mem_filter.mpr ⟨hmem, hg⟩)
          · exact query_to_index_nodup hnd hilen (by rw [hri])
        · exact hr
        · rfl
      · rw [if_neg hg, ← hr]
        apply retry_loop_untouched
        intro p hp hcon
        obtain ⟨r2, hr2mem, hp2eq⟩ := List.mem_map.mp hp
        have hr2filter := List.mem_filter.mp hr2mem
        obtain ⟨hlt, hqi⟩ := query_to_index_spec hcon
        have h1 : r2.query = p.1 := by rw [← hp2eq]
        have h2 : r.query = p.1 := by rw [← hri, hqi]
        have hrr : r2 = r :=
          List.inj_on_of_nodup_map hnd hr2filter.1 hmem (h1.trans h2.symm)
        rw [hrr] at hr2filter
        exact hg hr2filter.2

/-- Witness for C9 (amended): three rows with distinct queries, one
gRPC-failed; exactly that query is re-invoked, its row is overwritten,
the PASSED row and the non-transport FAILED row are unchanged. -/
theorem claim_C9_witness :
    (retry_grpc_failed_queries noQulBackend rowsDistinct).2 = ["q1"] ∧
    (retry_grpc_failed_queries noQulBackend rowsDistinct).1 =
      [{ query := "q1", status := "FAILED", error_message := "Failed to get QUL response" },
       { query := "q2", status := "PASSED", error_message := "" },
       { query := "q3", status := "FAILED",
         error_message := "Page 1 last (Catalog ID=1, Product ID=101) != Page 2 first (Catalog ID=2, Product ID=102)" }] := by
  have h := claim_C9_amended noQulBackend rowsDistinct (by decide)
  constructor
  · rw [h.1]
    decide
  · rw [h.2]
    decide
